import Mathlib

/-!
Verification of the `api-vacina-pet` veterinary clinic backend.

This file is a shallow embedding, in Lean 4, of the domain logic of the
repository: the data model (`Usuario`, `PerfilDono`, `PerfilFuncionario`,
`Pet`, `Vacina`, `PetVacina`), the vaccination status engine
(`PetVacina.get_status`, `PetVacina.esta_vencida`, `PetVacina.save`,
`Pet.obter_proximas_doses`, `Pet.obter_doses_vencidas`) and the service
layer (`VaccineService`, `VaccinationService`, `PetService`).

Dates are embedded as integers (day numbers); Python's
`(a - b).days` for `datetime.date` values is exact day arithmetic, so the
difference of the two day numbers. Prices and weights are embedded as
rationals (`Rat`) since Django `DecimalField`/float comparisons are exact
at the scales used. Database state is a record of lists of rows; Django
querysets become list filters, `objects.get`/`get_by_id` become `find?`,
and exceptions become an `Except` error type.
-/

namespace ApiVacinaPet

/-- A user row (Django `Usuario`, extending `AbstractUser`): only the fields
the domain logic reads are kept. -/
structure Usuario where
  id : Nat
  username : String
  isStaff : Bool
  deriving Repr, DecidableEq

/-- A pet-owner profile row (`PerfilDono`), one-to-one with a `Usuario`. -/
structure PerfilDono where
  id : Nat
  usuarioId : Nat
  nome : String
  deriving Repr, DecidableEq

/-- A staff/veterinarian profile row (`PerfilFuncionario`), one-to-one with a
`Usuario`. -/
structure PerfilFuncionario where
  id : Nat
  usuarioId : Nat
  nome : String
  cargo : String
  deriving Repr, DecidableEq

/-- A pet row (`Pet`). `donoId` is the foreign key to `PerfilDono`. -/
structure Pet where
  id : Nat
  donoId : Nat
  nome : String
  especie : String
  raca : String
  peso : Rat
  dataNascimento : Option Int
  deriving Repr, DecidableEq

/-- A vaccine catalog row (`Vacina`). `valor` is the price, `intervaloDosesDias`
the interval between doses in days. -/
structure Vacina where
  id : Nat
  nome : String
  fabricante : String
  valor : Rat
  intervaloDosesDias : Int
  descricao : String
  deriving Repr, DecidableEq

/-- A vaccination record row (`PetVacina`): foreign keys to `Pet`, `Vacina` and
`PerfilFuncionario`, the application date, the optional next-dose date, the
batch (`lote`) and free-text notes. -/
structure PetVacina where
  id : Nat
  petId : Nat
  vacinaId : Nat
  aplicadorId : Nat
  dataAplicacao : Int
  proximaDose : Option Int
  lote : String
  observacoes : String
  deriving Repr, DecidableEq

/-- `PetVacina.save`: if `proxima_dose` is not set, compute it as
`data_aplicacao + vacina.intervalo_doses_dias` (the record's vaccine row is
passed explicitly since the embedding has no implicit FK dereference); then
persist. A Python `date` is always truthy, so `if not self.proxima_dose`
holds exactly when the field is `None`. -/
def PetVacina.saveCompute (r : PetVacina) (vacina : Vacina) : PetVacina :=
  match r.proximaDose with
  | none => { r with proximaDose := some (r.dataAplicacao + vacina.intervaloDosesDias) }
  | some _ => r

/-- `PetVacina.esta_vencida`: true when a next-dose date exists and is
strictly before today. -/
def PetVacina.estaVencida (r : PetVacina) (hoje : Int) : Bool :=
  match r.proximaDose with
  | none => false
  | some p => p < hoje

/-- `PetVacina.get_status`: the four-way status, evaluated against today. -/
def PetVacina.getStatus (r : PetVacina) (hoje : Int) : String :=
  match r.proximaDose with
  | none => "indefinido"
  | some p =>
    if p < hoje then "vencida"
    else if p - hoje ≤ 7 then "proxima_em_breve"
    else "em_dia"

/-- `PetVaccineRepository.update`: optionally overwrite `lote`, `observacoes`
and `proxima_dose`, then call `vaccination.save()` (which recomputes
`proxima_dose` only when it is unset). -/
def PetVaccineRepository.update (vaccination : PetVacina)
    (lote? observacoes? : Option String) (proximaDose? : Option Int)
    (vacina : Vacina) : PetVacina :=
  let v1 := match lote? with
    | some l => { vaccination with lote := l }
    | none => vaccination
  let v2 := match observacoes? with
    | some o => { v1 with observacoes := o }
    | none => v1
  let v3 := match proximaDose? with
    | some p => { v2 with proximaDose := some p }
    | none => v2
  v3.saveCompute vacina

/-- C1: at read time `get_status` returns `indefinido` when there is no
next-dose date; `vencida` when `next_dose < today`; `proxima_em_breve` when
`0 ≤ (next_dose - today).days ≤ 7` (so exactly 7 days out is
`proxima_em_breve`, not `em_dia`); and `em_dia` when strictly more than
7 days out. -/
theorem c1_get_status_classification (r : PetVacina) (hoje : Int) :
    (r.proximaDose = none → r.getStatus hoje = "indefinido") ∧
    (∀ p, r.proximaDose = some p → p < hoje → r.getStatus hoje = "vencida") ∧
    (∀ p, r.proximaDose = some p → 0 ≤ p - hoje → p - hoje ≤ 7 →
      r.getStatus hoje = "proxima_em_breve") ∧
    (∀ p, r.proximaDose = some p → 7 < p - hoje → r.getStatus hoje = "em_dia") := by
  refine ⟨fun h => ?_, fun p hp hlt => ?_, fun p hp h0 h7 => ?_, fun p hp h7 => ?_⟩
  · simp [PetVacina.getStatus, h]
  · simp [PetVacina.getStatus, hp, hlt]
  · have : ¬ p < hoje := by omega
    simp [PetVacina.getStatus, hp, this, h7]
  · have h1 : ¬ p < hoje := by omega
    have h2 : ¬ p - hoje ≤ 7 := by omega
    simp [PetVacina.getStatus, hp, h1, h2]

/-- A concrete vaccination record whose next dose is exactly 7 days after
day 100, used to witness the status theorems. -/
def exRecord7 : PetVacina :=
  { id := 1, petId := 1, vacinaId := 1, aplicadorId := 1,
    dataAplicacao := 100, proximaDose := some 107, lote := "L1", observacoes := "" }

/-- Witness for C1: the record due exactly 7 days out is `proxima_em_breve`. -/
theorem c1_witness : exRecord7.getStatus 100 = "proxima_em_breve" :=
  (c1_get_status_classification exRecord7 100).2.2.1 107 rfl (by decide) (by decide)

/-- C9: the boolean overdue check agrees everywhere with the four-way status:
`esta_vencida` is true iff `get_status` is `vencida` (both compare with
`next_dose < today`); at the boundary `next_dose = today` the record is not
overdue and its status is `proxima_em_breve`; with no next-dose date it is
not overdue and its status is `indefinido`. -/
theorem c9_esta_vencida_iff_status_vencida (r : PetVacina) (hoje : Int) :
    (r.estaVencida hoje = true ↔ r.getStatus hoje = "vencida") ∧
    (r.proximaDose = some hoje →
      r.estaVencida hoje = false ∧ r.getStatus hoje = "proxima_em_breve") ∧
    (r.proximaDose = none →
      r.estaVencida hoje = false ∧ r.getStatus hoje = "indefinido") := by
  refine ⟨?_, fun h => ?_, fun h => ?_⟩
  · unfold PetVacina.estaVencida PetVacina.getStatus
    rcases hr : r.proximaDose with _ | p
    · simp
    · by_cases hlt : p < hoje
      · simp [hlt]
      · by_cases h7 : p - hoje ≤ 7 <;> simp [hlt, h7]
  · have h0 : ¬ hoje < hoje := by omega
    have h7 : hoje - hoje ≤ 7 := by omega
    constructor
    · simp [PetVacina.estaVencida, h]
    · simp [PetVacina.getStatus, h, h0, h7]
  · exact ⟨by simp [PetVacina.estaVencida, h], by simp [PetVacina.getStatus, h]⟩

/-- A record whose next dose falls exactly on day 100. -/
def exRecordToday : PetVacina :=
  { id := 2, petId := 1, vacinaId := 1, aplicadorId := 1,
    dataAplicacao := 50, proximaDose := some 100, lote := "L2", observacoes := "" }

/-- Witness for C9: at `next_dose = today` the record is not overdue and its
status is `proxima_em_breve`. -/
theorem c9_witness :
    exRecordToday.estaVencida 100 = false ∧
    exRecordToday.getStatus 100 = "proxima_em_breve" :=
  (c9_esta_vencida_iff_status_vencida exRecordToday 100).2.1 rfl

/-- C2: a record saved with no next-dose date gets
`next_dose = application_date + vaccine.dose_interval_days`; any later save
(with the vaccine row in any later state, in particular with a changed
interval) leaves the record unchanged, and any later repository update that
does not pass an explicit `proxima_dose` leaves the stored `next_dose`
unchanged. -/
theorem c2_next_dose_computed_once (r : PetVacina) (v : Vacina)
    (h : r.proximaDose = none) :
    (r.saveCompute v).proximaDose = some (r.dataAplicacao + v.intervaloDosesDias) ∧
    (∀ v' : Vacina, (r.saveCompute v).saveCompute v' = r.saveCompute v) ∧
    (∀ (v' : Vacina) (l o : Option String),
      (PetVaccineRepository.update (r.saveCompute v) l o none v').proximaDose
        = some (r.dataAplicacao + v.intervaloDosesDias)) := by
  have h1 : r.saveCompute v =
      { r with proximaDose := some (r.dataAplicacao + v.intervaloDosesDias) } := by
    simp [PetVacina.saveCompute, h]
  refine ⟨by rw [h1], fun v' => ?_, fun v' l o => ?_⟩
  · rw [h1]
    simp [PetVacina.saveCompute]
  · rw [h1]
    rcases l with _ | l <;> rcases o with _ | o <;>
      simp [PetVaccineRepository.update, PetVacina.saveCompute]

/-- A freshly created record (no next-dose date yet) applied on day 10. -/
def exRecordNew : PetVacina :=
  { id := 3, petId := 1, vacinaId := 5, aplicadorId := 1,
    dataAplicacao := 10, proximaDose := none, lote := "L3", observacoes := "" }

/-- A vaccine with a 365-day interval. -/
def exVacina365 : Vacina :=
  { id := 5, nome := "Raiva", fabricante := "Lab", valor := 85,
    intervaloDosesDias := 365, descricao := "anual" }

/-- The same vaccine after its interval was later changed to 30 days. -/
def exVacina30 : Vacina :=
  { id := 5, nome := "Raiva", fabricante := "Lab", valor := 85,
    intervaloDosesDias := 30, descricao := "mensal" }

/-- Witness for C2: saving the new record computes day `375`, and a later
update (no explicit next dose) after the interval changed to 30 still reads
`375`. -/
theorem c2_witness :
    (exRecordNew.saveCompute exVacina365).proximaDose = some 375 ∧
    (PetVaccineRepository.update (exRecordNew.saveCompute exVacina365)
      none (some "obs") none exVacina30).proximaDose = some 375 :=
  ⟨(c2_next_dose_computed_once exRecordNew exVacina365 rfl).1,
   (c2_next_dose_computed_once exRecordNew exVacina365 rfl).2.2 exVacina30 none (some "obs")⟩

/-- The persisted state: one list of rows per table. -/
structure DB where
  donos : List PerfilDono
  funcionarios : List PerfilFuncionario
  pets : List Pet
  vacinas : List Vacina
  registros : List PetVacina
  deriving Repr, DecidableEq

/-- The domain exceptions raised by the service layer (`core.exceptions`
plus plain `ValueError`). -/
inductive ServiceError where
  | staffOnly
  | ownerAccessOnly
  | petNotFound
  | vaccineNotFound
  | vaccinationNotFound
  | donoDoesNotExist
  | protectedError
  | valueError (msg : String)
  deriving Repr, DecidableEq

/-- `PerfilDono.objects.get(usuario=user)` (the relation is one-to-one, so
at most one row matches). -/
def DB.findDonoByUsuario (db : DB) (userId : Nat) : Option PerfilDono :=
  db.donos.find? (fun d => d.usuarioId == userId)

/-- `PerfilFuncionario.objects.get(usuario=user)`. -/
def DB.findFuncionarioByUsuario (db : DB) (userId : Nat) : Option PerfilFuncionario :=
  db.funcionarios.find? (fun f => f.usuarioId == userId)

/-- `PetRepository.get_by_id`. -/
def DB.findPet (db : DB) (petId : Nat) : Option Pet :=
  db.pets.find? (fun p => p.id == petId)

/-- `VaccineRepository.get_by_id`. -/
def DB.findVacina (db : DB) (vacinaId : Nat) : Option Vacina :=
  db.vacinas.find? (fun v => v.id == vacinaId)

/-- `PerfilFuncionario.objects.get(id=...)`. -/
def DB.findFuncionario (db : DB) (funcId : Nat) : Option PerfilFuncionario :=
  db.funcionarios.find? (fun f => f.id == funcId)

/-- `PerfilDono.objects.get(id=...)`. -/
def DB.findDono (db : DB) (donoId : Nat) : Option PerfilDono :=
  db.donos.find? (fun d => d.id == donoId)

/-- `PetVacina.objects.get(id=...)` via `PetVaccineRepository.get_by_id`. -/
def DB.findRegistro (db : DB) (recordId : Nat) : Option PetVacina :=
  db.registros.find? (fun r => r.id == recordId)

/-- Django autoincrement primary key for a fresh row. -/
def nextId (ids : List Nat) : Nat := ids.foldr max 0 + 1

/-- `PetVacina.objects.filter(pet__dono=dono)` with the join on the `pet`
foreign key: records whose pet's `dono_id` equals the given profile's pk.
The pk is passed as a bare `Nat` because the buggy caller in
`VaccinationService.list_all_vaccinations` passes a `PerfilFuncionario`
where the repository expects a `PerfilDono`; Django then compares raw pks. -/
def VaccinationRepo.getByOwnerPk (db : DB) (donoPk : Nat) : List PetVacina :=
  db.registros.filter (fun r =>
    match db.pets.find? (fun p => p.id == r.petId) with
    | some pet => pet.donoId == donoPk
    | none => false)

/-- `VaccinationService.list_all_vaccinations`: staff sees every record;
otherwise the code runs `PerfilFuncionario.objects.get(usuario=user)` (the
staff-profile table, although the variable is named `dono`), filters by
that profile's pk, and on `DoesNotExist` returns an empty list. -/
def listAllVaccinations (db : DB) (user : Usuario) :
    Except ServiceError (List PetVacina) :=
  if user.isStaff then Except.ok db.registros
  else
    match db.findFuncionarioByUsuario user.id with
    | some dono => Except.ok (VaccinationRepo.getByOwnerPk db dono.id)
    | none => Except.ok []

/-- `VaccineService.create_vaccine`: staff check first, then `valor < 0`
and `intervalo_doses_dias <= 0` validations, then the repository insert. -/
def createVaccine (db : DB) (user : Usuario) (nome fabricante : String)
    (valor : Rat) (intervaloDosesDias : Int) (descricao : String) :
    Except ServiceError (DB × Vacina) :=
  if !user.isStaff then Except.error ServiceError.staffOnly
  else if valor < 0 then
    Except.error (ServiceError.valueError "Valor nao pode ser negativo")
  else if intervaloDosesDias ≤ 0 then
    Except.error (ServiceError.valueError "Intervalo de doses deve ser maior que zero")
  else
    let v : Vacina :=
      { id := nextId (db.vacinas.map Vacina.id), nome := nome,
        fabricante := fabricante, valor := valor,
        intervaloDosesDias := intervaloDosesDias, descricao := descricao }
    Except.ok ({ db with vacinas := db.vacinas ++ [v] }, v)

/-- `VaccineRepository.update`: overwrite exactly the supplied fields. -/
def VaccineRepository.applyUpdate (vaccine : Vacina)
    (nome? fabricante? : Option String) (valor? : Option Rat)
    (intervalo? : Option Int) (descricao? : Option String) : Vacina :=
  let v1 := match nome? with
    | some n => { vaccine with nome := n }
    | none => vaccine
  let v2 := match fabricante? with
    | some f => { v1 with fabricante := f }
    | none => v1
  let v3 := match valor? with
    | some x => { v2 with valor := x }
    | none => v2
  let v4 := match intervalo? with
    | some i => { v3 with intervaloDosesDias := i }
    | none => v3
  match descricao? with
  | some d => { v4 with descricao := d }
  | none => v4

/-- `VaccineService.update_vaccine`: staff check, existence check, then the
`valor < 0` and `intervalo <= 0` validations on the supplied fields, then
the repository update (the row is replaced in place). -/
def updateVaccine (db : DB) (user : Usuario) (vaccineId : Nat)
    (nome? fabricante? : Option String) (valor? : Option Rat)
    (intervalo? : Option Int) (descricao? : Option String) :
    Except ServiceError (DB × Vacina) :=
  if !user.isStaff then Except.error ServiceError.staffOnly
  else
    match db.findVacina vaccineId with
    | none => Except.error ServiceError.vaccineNotFound
    | some vaccine =>
      if valor?.any (fun x => decide (x < 0)) then
        Except.error (ServiceError.valueError "Valor nao pode ser negativo")
      else if intervalo?.any (fun i => decide (i ≤ 0)) then
        Except.error (ServiceError.valueError "Intervalo deve ser maior que zero")
      else
        let v' := VaccineRepository.applyUpdate vaccine
          nome? fabricante? valor? intervalo? descricao?
        Except.ok
          ({ db with vacinas := db.vacinas.map (fun w => if w.id == vaccineId then v' else w) }, v')

/-- `VaccineService.delete_vaccine`: staff check, existence check, then
`vaccine.delete()`; the `PROTECT` constraint on `PetVacina.vacina` blocks
the delete while applications reference the row. -/
def deleteVaccine (db : DB) (user : Usuario) (vaccineId : Nat) :
    Except ServiceError DB :=
  if !user.isStaff then Except.error ServiceError.staffOnly
  else
    match db.findVacina vaccineId with
    | none => Except.error ServiceError.vaccineNotFound
    | some _ =>
      if db.registros.any (fun r => r.vacinaId == vaccineId) then
        Except.error ServiceError.protectedError
      else
        Except.ok { db with vacinas := db.vacinas.filter (fun w => w.id != vaccineId) }

/-- `VaccinationService.record_vaccination`: staff check first, then the
three reference lookups (each missing one raises `ValueError`), then the
future-date check `data_aplicacao > date.today()`, then the repository
create, whose `objects.create` runs `PetVacina.save` and so computes the
next dose. -/
def recordVaccination (db : DB) (user : Usuario)
    (petId vaccineId aplicadorId : Nat) (dataAplicacao : Int)
    (lote observacoes : String) (hoje : Int) :
    Except ServiceError (DB × PetVacina) :=
  if !user.isStaff then Except.error ServiceError.staffOnly
  else
    match db.findPet petId with
    | none => Except.error (ServiceError.valueError "Pet nao encontrado")
    | some _ =>
      match db.findVacina vaccineId with
      | none => Except.error (ServiceError.valueError "Vacina nao encontrada")
      | some vaccine =>
        match db.findFuncionario aplicadorId with
        | none => Except.error (ServiceError.valueError "Funcionario nao encontrado")
        | some _ =>
          if hoje < dataAplicacao then
            Except.error (ServiceError.valueError "Data de aplicacao nao pode ser no futuro")
          else
            let r0 : PetVacina :=
              { id := nextId (db.registros.map PetVacina.id), petId := petId,
                vacinaId := vaccineId, aplicadorId := aplicadorId,
                dataAplicacao := dataAplicacao, proximaDose := none,
                lote := lote, observacoes := observacoes }
            let r := r0.saveCompute vaccine
            Except.ok ({ db with registros := db.registros ++ [r] }, r)

/-- `VaccinationService.update_vaccination`: staff check, existence check,
then `PetVaccineRepository.update` (whose `save()` reads the record's own
vaccine row; foreign-key integrity guarantees that row exists, a missing
row is mapped to an error here). -/
def updateVaccination (db : DB) (user : Usuario) (vaccinationId : Nat)
    (lote? observacoes? : Option String) (proximaDose? : Option Int) :
    Except ServiceError (DB × PetVacina) :=
  if !user.isStaff then Except.error ServiceError.staffOnly
  else
    match db.findRegistro vaccinationId with
    | none => Except.error ServiceError.vaccinationNotFound
    | some vaccination =>
      match db.findVacina vaccination.vacinaId with
      | none => Except.error ServiceError.vaccineNotFound
      | some vacina =>
        let r' := PetVaccineRepository.update vaccination lote? observacoes? proximaDose? vacina
        Except.ok
          ({ db with registros := db.registros.map (fun w => if w.id == vaccinationId then r' else w) }, r')

/-- `VaccinationService.delete_vaccination`: staff check, existence check,
then `vaccination.delete()` (a `PetVacina` row is not the target of any
`PROTECT` reference, so the delete always proceeds). -/
def deleteVaccination (db : DB) (user : Usuario) (vaccinationId : Nat) :
    Except ServiceError DB :=
  if !user.isStaff then Except.error ServiceError.staffOnly
  else
    match db.findRegistro vaccinationId with
    | none => Except.error ServiceError.vaccinationNotFound
    | some _ =>
      Except.ok { db with registros := db.registros.filter (fun w => w.id != vaccinationId) }

/-- `VALIDATION_CONSTRAINTS.MIN_PET_WEIGHT = 0.01`. -/
def minPetWeight : Rat := 1 / 100

/-- `PetService._get_user_owner`: the caller's `PerfilDono`, or
`OwnerAccessOnlyException` when none exists. -/
def getUserOwner (db : DB) (user : Usuario) : Except ServiceError PerfilDono :=
  match db.findDonoByUsuario user.id with
  | some dono => Except.ok dono
  | none => Except.error ServiceError.ownerAccessOnly

/-- `PetService.create_pet`: weight validation first; then owner
resolution — Python's `if dono_id:` is a truthiness test, so both `None`
and `0` fall through to "use the caller's own profile"; a non-staff caller
supplying a different real owner id gets `OwnerAccessOnlyException`
(`OWN_PETS_ONLY`); staff looks the target profile up directly
(`PerfilDono.objects.get(id=dono_id)`, raising `DoesNotExist` if absent);
finally the repository insert. -/
def createPet (db : DB) (user : Usuario) (donoId : Option Nat)
    (nome especie raca : String) (peso : Rat) (dataNascimento : Option Int) :
    Except ServiceError (DB × Pet) :=
  if peso < minPetWeight then
    Except.error (ServiceError.valueError "Peso minimo e 0.01kg")
  else
    let resolved : Except ServiceError PerfilDono :=
      match donoId with
      | some d =>
        if d ≠ 0 then
          if !user.isStaff then
            match getUserOwner db user with
            | Except.error e => Except.error e
            | Except.ok dono =>
              if dono.id ≠ d then Except.error ServiceError.ownerAccessOnly
              else Except.ok dono
          else
            match db.findDono d with
            | some dono => Except.ok dono
            | none => Except.error ServiceError.donoDoesNotExist
        else getUserOwner db user
      | none => getUserOwner db user
    match resolved with
    | Except.error e => Except.error e
    | Except.ok dono =>
      let pet : Pet :=
        { id := nextId (db.pets.map Pet.id), donoId := dono.id, nome := nome,
          especie := especie, raca := raca, peso := peso,
          dataNascimento := dataNascimento }
      Except.ok ({ db with pets := db.pets ++ [pet] }, pet)

/-- One dictionary in the list returned by `Pet.obter_proximas_doses` or
`Pet.obter_doses_vencidas`: the two dictionaries share the keys `vacina`,
`data_proxima_dose` and `historico_id`, and carry `dias_restantes`
(upcoming) or `dias_vencido` (overdue); the absent key is `none` here. -/
structure DoseEntry where
  vacina : String
  dataProximaDose : Int
  diasRestantes : Option Int
  diasVencido : Option Int
  historicoId : Nat
  deriving Repr, DecidableEq

/-- Stable insertion step for descending order on `data_aplicacao`. -/
def insertByDataDesc (r : PetVacina) : List PetVacina → List PetVacina
  | [] => [r]
  | x :: xs =>
    if x.dataAplicacao < r.dataAplicacao then r :: x :: xs
    else x :: insertByDataDesc r xs

/-- `order_by('-data_aplicacao')`: a stable sort of the records by
application date, most recent first. -/
def ordByDataAplicacaoDesc : List PetVacina → List PetVacina
  | [] => []
  | x :: xs => insertByDataDesc x (ordByDataAplicacaoDesc xs)

/-- `self.historico_vacinas.all()`: the reverse foreign-key queryset, i.e.
the records whose `pet_id` is this pet's pk. -/
def historicoVacinas (db : DB) (pet : Pet) : List PetVacina :=
  db.registros.filter (fun r => r.petId == pet.id)

/-- `registro.vacina.nome`: dereference the record's vaccine foreign key
(foreign-key integrity guarantees the row exists; a missing row reads ""). -/
def vacinaNome (db : DB) (vacinaId : Nat) : String :=
  match db.findVacina vacinaId with
  | some v => v.nome
  | none => ""

/-- The loop body of `Pet.obter_proximas_doses`: a record contributes an
entry when `registro.proxima_dose and registro.proxima_dose >= hoje` (a
`date` is always truthy, so this is: non-null and today-or-later). -/
def upcomingEntry (db : DB) (hoje : Int) (registro : PetVacina) : Option DoseEntry :=
  match registro.proximaDose with
  | some p =>
    if hoje ≤ p then
      some { vacina := vacinaNome db registro.vacinaId, dataProximaDose := p,
             diasRestantes := some (p - hoje), diasVencido := none,
             historicoId := registro.id }
    else none
  | none => none

/-- The loop body of `Pet.obter_doses_vencidas`: a record contributes an
entry when its next-dose date is non-null and strictly before today. -/
def overdueEntry (db : DB) (hoje : Int) (registro : PetVacina) : Option DoseEntry :=
  match registro.proximaDose with
  | some p =>
    if p < hoje then
      some { vacina := vacinaNome db registro.vacinaId, dataProximaDose := p,
             diasRestantes := none, diasVencido := some (hoje - p),
             historicoId := registro.id }
    else none
  | none => none

/-- `Pet.obter_proximas_doses`: iterate the pet's history ordered by
application date descending, keeping the upcoming entries. -/
def obterProximasDoses (db : DB) (pet : Pet) (hoje : Int) : List DoseEntry :=
  (ordByDataAplicacaoDesc (historicoVacinas db pet)).filterMap (upcomingEntry db hoje)

/-- `Pet.obter_doses_vencidas`: same traversal, keeping the overdue entries. -/
def obterDosesVencidas (db : DB) (pet : Pet) (hoje : Int) : List DoseEntry :=
  (ordByDataAplicacaoDesc (historicoVacinas db pet)).filterMap (overdueEntry db hoje)

/-- `PetService.get_pet_vaccination_history`: resolve the pet (error when
missing) and return `obter_proximas_doses() + obter_doses_vencidas()`. -/
def getPetVaccinationHistory (db : DB) (petId : Nat) (hoje : Int) :
    Except ServiceError (List DoseEntry) :=
  match db.findPet petId with
  | none => Except.error ServiceError.petNotFound
  | some pet =>
    Except.ok (obterProximasDoses db pet hoje ++ obterDosesVencidas db pet hoje)

/-- The application date of the record a history entry points to (used to
talk about the ordering of the combined history list). -/
def regDataAplicacao (db : DB) (i : Nat) : Int :=
  match db.findRegistro i with
  | some r => r.dataAplicacao
  | none => 0

theorem insertByDataDesc_perm (r : PetVacina) (l : List PetVacina) :
    (insertByDataDesc r l).Perm (r :: l) := by
  induction l with
  | nil => simp [insertByDataDesc]
  | cons x xs ih =>
    rw [insertByDataDesc]
    split
    · exact List.Perm.refl _
    · exact (ih.cons x).trans (List.Perm.swap r x xs)

theorem ordByDataAplicacaoDesc_perm (l : List PetVacina) :
    (ordByDataAplicacaoDesc l).Perm l := by
  induction l with
  | nil => exact List.Perm.refl _
  | cons x xs ih =>
    exact (insertByDataDesc_perm x (ordByDataAplicacaoDesc xs)).trans (ih.cons x)

theorem mem_ordByDataAplicacaoDesc {r : PetVacina} {l : List PetVacina} :
    r ∈ ordByDataAplicacaoDesc l ↔ r ∈ l :=
  (ordByDataAplicacaoDesc_perm l).mem_iff

theorem upcomingEntry_some {db : DB} {hoje : Int} {reg : PetVacina} {e : DoseEntry}
    (h : upcomingEntry db hoje reg = some e) :
    ∃ p, reg.proximaDose = some p ∧ hoje ≤ p ∧
      e = { vacina := vacinaNome db reg.vacinaId, dataProximaDose := p,
            diasRestantes := some (p - hoje), diasVencido := none,
            historicoId := reg.id } := by
  rcases hr : reg.proximaDose with _ | p
  · simp [upcomingEntry, hr] at h
  · by_cases hle : hoje ≤ p
    · refine ⟨p, rfl, hle, ?_⟩
      simp only [upcomingEntry, hr, if_pos hle] at h
      exact (Option.some.inj h).symm
    · simp [upcomingEntry, hr, hle] at h

theorem overdueEntry_some {db : DB} {hoje : Int} {reg : PetVacina} {e : DoseEntry}
    (h : overdueEntry db hoje reg = some e) :
    ∃ p, reg.proximaDose = some p ∧ p < hoje ∧
      e = { vacina := vacinaNome db reg.vacinaId, dataProximaDose := p,
            diasRestantes := none, diasVencido := some (hoje - p),
            historicoId := reg.id } := by
  rcases hr : reg.proximaDose with _ | p
  · simp [overdueEntry, hr] at h
  · by_cases hlt : p < hoje
    · refine ⟨p, rfl, hlt, ?_⟩
      simp only [overdueEntry, hr, if_pos hlt] at h
      exact (Option.some.inj h).symm
    · simp [overdueEntry, hr, hlt] at h

theorem mem_obterProximasDoses {db : DB} {pet : Pet} {hoje : Int} {e : DoseEntry} :
    e ∈ obterProximasDoses db pet hoje ↔
      ∃ reg, reg ∈ historicoVacinas db pet ∧ upcomingEntry db hoje reg = some e := by
  unfold obterProximasDoses
  rw [List.mem_filterMap]
  constructor
  · rintro ⟨reg, hmem, hf⟩
    exact ⟨reg, mem_ordByDataAplicacaoDesc.mp hmem, hf⟩
  · rintro ⟨reg, hmem, hf⟩
    exact ⟨reg, mem_ordByDataAplicacaoDesc.mpr hmem, hf⟩

theorem mem_obterDosesVencidas {db : DB} {pet : Pet} {hoje : Int} {e : DoseEntry} :
    e ∈ obterDosesVencidas db pet hoje ↔
      ∃ reg, reg ∈ historicoVacinas db pet ∧ overdueEntry db hoje reg = some e := by
  unfold obterDosesVencidas
  rw [List.mem_filterMap]
  constructor
  · rintro ⟨reg, hmem, hf⟩
    exact ⟨reg, mem_ordByDataAplicacaoDesc.mp hmem, hf⟩
  · rintro ⟨reg, hmem, hf⟩
    exact ⟨reg, mem_ordByDataAplicacaoDesc.mpr hmem, hf⟩

theorem prox_venc_disjoint_ids (db : DB) (pet : Pet) (hoje : Int)
    (hnd : ((historicoVacinas db pet).map PetVacina.id).Nodup) (i : Nat) :
    ¬ ((∃ e ∈ obterProximasDoses db pet hoje, e.historicoId = i) ∧
       (∃ e ∈ obterDosesVencidas db pet hoje, e.historicoId = i)) := by
  rintro ⟨⟨e1, he1, hid1⟩, ⟨e2, he2, hid2⟩⟩
  obtain ⟨r1, hr1, hf1⟩ := mem_obterProximasDoses.mp he1
  obtain ⟨r2, hr2, hf2⟩ := mem_obterDosesVencidas.mp he2
  obtain ⟨p1, hp1, hle1, he1e⟩ := upcomingEntry_some hf1
  obtain ⟨p2, hp2, hlt2, he2e⟩ := overdueEntry_some hf2
  have hid : r1.id = r2.id := by
    have h1 : e1.historicoId = r1.id := by rw [he1e]
    have h2 : e2.historicoId = r2.id := by rw [he2e]
    omega
  have heq : r1 = r2 := List.inj_on_of_nodup_map hnd hr1 hr2 hid
  rw [heq, hp2] at hp1
  have hpe : p2 = p1 := Option.some.inj hp1
  omega

/-- C3: for a pet (with the database invariant that record pks are
distinct), the upcoming list holds exactly the pet's records with a
non-null next-dose date ≥ today, each with
`dias_restantes = next_dose - today ≥ 0`; the overdue list holds exactly
those with a non-null next-dose date < today, each with
`dias_vencido = today - next_dose > 0`; the two lists are disjoint; and
every entry of either list comes from a record with a non-null next-dose
date, so their union is exactly that set of records. -/
theorem c3_upcoming_overdue_partition (db : DB) (pet : Pet) (hoje : Int)
    (hnd : ((historicoVacinas db pet).map PetVacina.id).Nodup) :
    (∀ reg ∈ historicoVacinas db pet, ∀ p, reg.proximaDose = some p → hoje ≤ p →
      ∃ e ∈ obterProximasDoses db pet hoje, e.historicoId = reg.id ∧
        e.dataProximaDose = p ∧ e.diasRestantes = some (p - hoje) ∧
        e.diasVencido = none ∧ e.vacina = vacinaNome db reg.vacinaId) ∧
    (∀ e ∈ obterProximasDoses db pet hoje,
      (∃ reg ∈ historicoVacinas db pet, reg.id = e.historicoId ∧
        reg.proximaDose = some e.dataProximaDose) ∧
      hoje ≤ e.dataProximaDose ∧
      e.diasRestantes = some (e.dataProximaDose - hoje) ∧
      0 ≤ e.dataProximaDose - hoje) ∧
    (∀ reg ∈ historicoVacinas db pet, ∀ p, reg.proximaDose = some p → p < hoje →
      ∃ e ∈ obterDosesVencidas db pet hoje, e.historicoId = reg.id ∧
        e.dataProximaDose = p ∧ e.diasVencido = some (hoje - p) ∧
        e.diasRestantes = none ∧ e.vacina = vacinaNome db reg.vacinaId) ∧
    (∀ e ∈ obterDosesVencidas db pet hoje,
      (∃ reg ∈ historicoVacinas db pet, reg.id = e.historicoId ∧
        reg.proximaDose = some e.dataProximaDose) ∧
      e.dataProximaDose < hoje ∧
      e.diasVencido = some (hoje - e.dataProximaDose) ∧
      0 < hoje - e.dataProximaDose) ∧
    (∀ i : Nat, ¬ ((∃ e ∈ obterProximasDoses db pet hoje, e.historicoId = i) ∧
       (∃ e ∈ obterDosesVencidas db pet hoje, e.historicoId = i))) := by
  refine ⟨?_, ?_, ?_, ?_, prox_venc_disjoint_ids db pet hoje hnd⟩
  · intro reg hreg p hp hle
    refine ⟨(⟨vacinaNome db reg.vacinaId, p, some (p - hoje), none, reg.id⟩ : DoseEntry),
      ?_, rfl, rfl, rfl, rfl, rfl⟩
    exact mem_obterProximasDoses.mpr ⟨reg, hreg, by simp [upcomingEntry, hp, hle]⟩
  · intro e he
    obtain ⟨reg, hreg, hf⟩ := mem_obterProximasDoses.mp he
    obtain ⟨p, hp, hle, hee⟩ := upcomingEntry_some hf
    subst hee
    exact ⟨⟨reg, hreg, rfl, hp⟩, hle, rfl, (by omega : (0:Int) ≤ p - hoje)⟩
  · intro reg hreg p hp hlt
    refine ⟨(⟨vacinaNome db reg.vacinaId, p, none, some (hoje - p), reg.id⟩ : DoseEntry),
      ?_, rfl, rfl, rfl, rfl, rfl⟩
    exact mem_obterDosesVencidas.mpr ⟨reg, hreg, by simp [overdueEntry, hp, hlt]⟩
  · intro e he
    obtain ⟨reg, hreg, hf⟩ := mem_obterDosesVencidas.mp he
    obtain ⟨p, hp, hlt, hee⟩ := overdueEntry_some hf
    subst hee
    exact ⟨⟨reg, hreg, rfl, hp⟩, hlt, rfl, (by omega : (0:Int) < hoje - p)⟩

/-- C5: for a caller whose `is_staff` flag is false, each of the six
staff-only mutations — create/update/delete on a vaccine and
record/update/delete on a vaccination record — fails with
`StaffOnlyException` whatever the other arguments are (so the staff check
runs before any validation or lookup), and no new state is produced by the
failed call (the error constructor carries no database). -/
theorem c5_staff_only_mutations (db : DB) (user : Usuario)
    (h : user.isStaff = false)
    (n f d : String) (valor : Rat) (intervalo : Int)
    (vid rid pid aid : Nat)
    (n? f? d? l? o? : Option String) (v? : Option Rat) (i? p? : Option Int)
    (da hoje : Int) (l o : String) :
    createVaccine db user n f valor intervalo d = Except.error ServiceError.staffOnly ∧
    updateVaccine db user vid n? f? v? i? d? = Except.error ServiceError.staffOnly ∧
    deleteVaccine db user vid = Except.error ServiceError.staffOnly ∧
    recordVaccination db user pid vid aid da l o hoje = Except.error ServiceError.staffOnly ∧
    updateVaccination db user rid l? o? p? = Except.error ServiceError.staffOnly ∧
    deleteVaccination db user rid = Except.error ServiceError.staffOnly := by
  refine ⟨?_, ?_, ?_, ?_, ?_, ?_⟩ <;>
    simp [createVaccine, updateVaccine, deleteVaccine, recordVaccination,
      updateVaccination, deleteVaccination, h]

/-- A non-staff user (a pet owner). -/
def exOwnerUser : Usuario := { id := 11, username := "ana", isStaff := false }

/-- A staff user. -/
def exStaffUser : Usuario := { id := 12, username := "vet", isStaff := true }

/-- The owner profile of `exOwnerUser`. -/
def exDonoAna : PerfilDono := { id := 1, usuarioId := 11, nome := "Ana" }

/-- A second owner profile, belonging to some other user. -/
def exDonoBia : PerfilDono := { id := 2, usuarioId := 13, nome := "Bia" }

/-- The staff profile of `exStaffUser`. -/
def exFuncVet : PerfilFuncionario :=
  { id := 1, usuarioId := 12, nome := "Dr. Vet", cargo := "Veterinario" }

/-- Ana's pet. -/
def exPetRex : Pet :=
  { id := 1, donoId := 1, nome := "Rex", especie := "Cachorro", raca := "SRD",
    peso := 10, dataNascimento := some 0 }

/-- A vaccination record for Rex with `exVacina365`, applied on day 20. -/
def exRegRex : PetVacina :=
  { id := 1, petId := 1, vacinaId := 5, aplicadorId := 1,
    dataAplicacao := 20, proximaDose := some 385, lote := "B1", observacoes := "" }

/-- A small concrete database used by the witnesses. -/
def exDB : DB :=
  { donos := [exDonoAna, exDonoBia], funcionarios := [exFuncVet],
    pets := [exPetRex], vacinas := [exVacina365], registros := [exRegRex] }

/-- Witness for C5: the non-staff user is turned away from all six
mutations on the concrete database. -/
theorem c5_witness :
    createVaccine exDB exOwnerUser "Raiva" "Lab" 85 365 "d" = Except.error ServiceError.staffOnly ∧
    updateVaccine exDB exOwnerUser 5 none none none none none = Except.error ServiceError.staffOnly ∧
    deleteVaccine exDB exOwnerUser 5 = Except.error ServiceError.staffOnly ∧
    recordVaccination exDB exOwnerUser 1 5 1 10 "B2" "" 100 = Except.error ServiceError.staffOnly ∧
    updateVaccination exDB exOwnerUser 1 none none none = Except.error ServiceError.staffOnly ∧
    deleteVaccination exDB exOwnerUser 1 = Except.error ServiceError.staffOnly :=
  c5_staff_only_mutations exDB exOwnerUser rfl "Raiva" "Lab" "d" 85 365 5 1 1 1
    none none none none none none none none 10 100 "B2" ""

/-- C7: for a staff caller whose pet, vaccine and administrator references
all resolve, `record_vaccination` with an application date strictly after
today fails with the future-date `ValueError`, and the error carries no new
database, so no record is created. -/
theorem c7_future_application_date_rejected (db : DB) (user : Usuario)
    (pid vid aid : Nat) (pet : Pet) (vaccine : Vacina) (func : PerfilFuncionario)
    (hstaff : user.isStaff = true)
    (hp : db.findPet pid = some pet)
    (hv : db.findVacina vid = some vaccine)
    (ha : db.findFuncionario aid = some func)
    (da hoje : Int) (hfut : hoje < da) (l o : String) :
    recordVaccination db user pid vid aid da l o hoje =
      Except.error (ServiceError.valueError "Data de aplicacao nao pode ser no futuro") := by
  simp [recordVaccination, hstaff, hp, hv, ha, hfut]

/-- Witness for C7: on the concrete database the staff user cannot record a
vaccination dated day 101 when today is day 100. -/
theorem c7_witness :
    recordVaccination exDB exStaffUser 1 5 1 101 "B2" "" 100 =
      Except.error (ServiceError.valueError "Data de aplicacao nao pode ser no futuro") :=
  c7_future_application_date_rejected exDB exStaffUser 1 5 1 exPetRex exVacina365
    exFuncVet rfl rfl rfl rfl 101 100 (by decide) "B2" ""

/-- C8 counterexample: the claim says a non-positive price (`price ≤ 0`) is
rejected, but a staff call to `create_vaccine` with `valor = 0` succeeds —
the service only rejects `valor < 0` — and the zero-priced vaccine is
appended to the catalog. -/
theorem c8_counterexample :
    exStaffUser.isStaff = true ∧ ((0 : Rat) ≤ 0) ∧
    createVaccine exDB exStaffUser "Gratis" "Lab" 0 365 "d" =
      Except.ok ({ exDB with vacinas := exDB.vacinas ++
        [{ id := 6, nome := "Gratis", fabricante := "Lab", valor := 0,
           intervaloDosesDias := 365, descricao := "d" }] },
        { id := 6, nome := "Gratis", fabricante := "Lab", valor := 0,
          intervaloDosesDias := 365, descricao := "d" }) := by
  refine ⟨rfl, le_refl 0, ?_⟩
  simp [createVaccine, exStaffUser, exDB, nextId, exVacina365]

/-- C8 (amended): for a staff call to `create_vaccine` or (on an existing
vaccine) `update_vaccine` that supplies a strictly negative price, the call
fails with the `ValueError` "Valor nao pode ser negativo" and nothing is
created or changed; a zero price is accepted by the service layer. -/
theorem c8_negative_price_rejected (db : DB) (user : Usuario)
    (hstaff : user.isStaff = true) (valor : Rat) (hneg : valor < 0)
    (n f d : String) (intervalo : Int) :
    createVaccine db user n f valor intervalo d =
      Except.error (ServiceError.valueError "Valor nao pode ser negativo") ∧
    (∀ (vid : Nat) (vaccine : Vacina), db.findVacina vid = some vaccine →
      ∀ (n? f? d? : Option String) (i? : Option Int),
        updateVaccine db user vid n? f? (some valor) i? d? =
          Except.error (ServiceError.valueError "Valor nao pode ser negativo")) := by
  constructor
  · simp [createVaccine, hstaff, hneg]
  · intro vid vaccine hv n? f? d? i?
    simp [updateVaccine, hstaff, hv, hneg]

/-- Witness for C8 (amended): price `-1` is rejected on the concrete
database, for creation and for an update of the existing vaccine. -/
theorem c8_witness :
    createVaccine exDB exStaffUser "Raiva" "Lab" (-1) 365 "d" =
      Except.error (ServiceError.valueError "Valor nao pode ser negativo") ∧
    updateVaccine exDB exStaffUser 5 none none (some (-1)) none none =
      Except.error (ServiceError.valueError "Valor nao pode ser negativo") :=
  ⟨(c8_negative_price_rejected exDB exStaffUser rfl (-1) (by norm_num) "Raiva" "Lab" "d" 365).1,
   (c8_negative_price_rejected exDB exStaffUser rfl (-1) (by norm_num) "Raiva" "Lab" "d" 365).2
     5 exVacina365 rfl none none none none⟩

/-- C6: a non-staff caller with owner profile `dono` who supplies a target
owner id `d ≠ dono.id` (a real id: Django primary keys are positive, so
`d ≠ 0`) is rejected with `OwnerAccessOnlyException` and no pet is created
(the error carries no database); the same caller omitting the owner id gets
the pet created under their own profile. The weight must pass its earlier
validation, otherwise the call fails with `ValueError` instead. -/
theorem c6_create_pet_owner_scope (db : DB) (user : Usuario) (dono : PerfilDono)
    (hstaff : user.isStaff = false)
    (hdono : db.findDonoByUsuario user.id = some dono)
    (nome especie raca : String) (peso : Rat) (dn : Option Int)
    (hpeso : ¬ peso < minPetWeight) :
    (∀ d, d ≠ 0 → dono.id ≠ d →
      createPet db user (some d) nome especie raca peso dn =
        Except.error ServiceError.ownerAccessOnly) ∧
    (∃ pet, createPet db user none nome especie raca peso dn =
        Except.ok ({ db with pets := db.pets ++ [pet] }, pet) ∧
      pet.donoId = dono.id) := by
  constructor
  · intro d hd0 hne
    simp [createPet, hpeso, hd0, hstaff, getUserOwner, hdono, hne]
  · refine ⟨(⟨nextId (db.pets.map Pet.id), dono.id, nome, especie, raca, peso, dn⟩ : Pet),
      ?_, rfl⟩
    simp [createPet, hpeso, getUserOwner, hdono]

/-- Witness for C6: Ana (owner profile id 1) may not create a pet for
owner id 2, and creating with no owner id lands the pet under profile 1. -/
theorem c6_witness :
    createPet exDB exOwnerUser (some 2) "Toto" "Gato" "SRD" 3 none =
      Except.error ServiceError.ownerAccessOnly ∧
    ∃ pet, createPet exDB exOwnerUser none "Toto" "Gato" "SRD" 3 none =
        Except.ok ({ exDB with pets := exDB.pets ++ [pet] }, pet) ∧
      pet.donoId = exDonoAna.id :=
  ⟨(c6_create_pet_owner_scope exDB exOwnerUser exDonoAna rfl rfl "Toto" "Gato" "SRD"
      3 none (by norm_num [minPetWeight])).1 2 (by decide) (by decide),
   (c6_create_pet_owner_scope exDB exOwnerUser exDonoAna rfl rfl "Toto" "Gato" "SRD"
      3 none (by norm_num [minPetWeight])).2⟩

/-- C4 failing input: Ana is non-staff, has an owner profile (id 1) whose
pet Rex has a vaccination record, and has no staff profile. The claim says
she should receive exactly her records (and an error if she had no owner
profile), but `list_all_vaccinations` looks her up in the staff-profile
table (`PerfilFuncionario.objects.get(usuario=user)`), finds nothing, and
returns an empty list — a silently empty result despite her record
existing. -/
theorem c4_code_bug_silent_empty :
    exOwnerUser.isStaff = false ∧
    exDB.findDonoByUsuario exOwnerUser.id = some exDonoAna ∧
    VaccinationRepo.getByOwnerPk exDB exDonoAna.id = [exRegRex] ∧
    exDB.findFuncionarioByUsuario exOwnerUser.id = none ∧
    listAllVaccinations exDB exOwnerUser = Except.ok [] := by
  refine ⟨rfl, ?_, ?_, ?_, ?_⟩ <;>
    simp [DB.findDonoByUsuario, VaccinationRepo.getByOwnerPk,
      DB.findFuncionarioByUsuario, listAllVaccinations, exDB, exOwnerUser,
      exDonoAna, exDonoBia, exFuncVet, exPetRex, exRegRex]

/-- A pet with a four-record vaccination history (used for C3 and C10). -/
def exPet10 : Pet :=
  { id := 1, donoId := 1, nome := "Rex", especie := "Cachorro", raca := "SRD",
    peso := 10, dataNascimento := none }

/-- Upcoming record: applied day 20, next dose day 101. -/
def exRegA : PetVacina :=
  { id := 1, petId := 1, vacinaId := 5, aplicadorId := 1,
    dataAplicacao := 20, proximaDose := some 101, lote := "A", observacoes := "" }

/-- Overdue record: applied day 30, next dose day 90. -/
def exRegB : PetVacina :=
  { id := 2, petId := 1, vacinaId := 5, aplicadorId := 1,
    dataAplicacao := 30, proximaDose := some 90, lote := "B", observacoes := "" }

/-- Overdue record: applied day 10, next dose day 80. -/
def exRegC : PetVacina :=
  { id := 3, petId := 1, vacinaId := 5, aplicadorId := 1,
    dataAplicacao := 10, proximaDose := some 80, lote := "C", observacoes := "" }

/-- Record with no next-dose date. -/
def exRegD : PetVacina :=
  { id := 4, petId := 1, vacinaId := 5, aplicadorId := 1,
    dataAplicacao := 5, proximaDose := none, lote := "D", observacoes := "" }

/-- A concrete database around `exPet10` (today is day 100 in the tests). -/
def exDB10 : DB :=
  { donos := [exDonoAna], funcionarios := [exFuncVet], pets := [exPet10],
    vacinas := [exVacina365], registros := [exRegA, exRegB, exRegC, exRegD] }

/-- Witness for C3: on the concrete history, the upcoming record `exRegA`
(next dose day 101, today day 100) yields an upcoming entry with
`dias_restantes = 1`. -/
theorem c3_witness :
    ∃ e ∈ obterProximasDoses exDB10 exPet10 100, e.historicoId = exRegA.id ∧
      e.dataProximaDose = 101 ∧ e.diasRestantes = some (101 - 100) ∧
      e.diasVencido = none ∧ e.vacina = vacinaNome exDB10 exRegA.vacinaId :=
  (c3_upcoming_overdue_partition exDB10 exPet10 100 (by decide)).1
    exRegA (by decide) 101 rfl (by decide)

theorem upcomingEntry_id {db : DB} {hoje : Int} {reg : PetVacina} {e : DoseEntry}
    (h : upcomingEntry db hoje reg = some e) : e.historicoId = reg.id := by
  obtain ⟨p, _, _, hee⟩ := upcomingEntry_some h
  rw [hee]

theorem overdueEntry_id {db : DB} {hoje : Int} {reg : PetVacina} {e : DoseEntry}
    (h : overdueEntry db hoje reg = some e) : e.historicoId = reg.id := by
  obtain ⟨p, _, _, hee⟩ := overdueEntry_some h
  rw [hee]

theorem upcoming_ids_sublist (db : DB) (hoje : Int) (l : List PetVacina) :
    ((l.filterMap (upcomingEntry db hoje)).map DoseEntry.historicoId).Sublist
      (l.map PetVacina.id) := by
  induction l with
  | nil => simp
  | cons x xs ih =>
    rcases hx : upcomingEntry db hoje x with _ | e
    · simp only [List.filterMap_cons, hx, List.map_cons]
      exact ih.cons x.id
    · simp only [List.filterMap_cons, hx, List.map_cons]
      rw [upcomingEntry_id hx]
      exact ih.cons₂ x.id

theorem overdue_ids_sublist (db : DB) (hoje : Int) (l : List PetVacina) :
    ((l.filterMap (overdueEntry db hoje)).map DoseEntry.historicoId).Sublist
      (l.map PetVacina.id) := by
  induction l with
  | nil => simp
  | cons x xs ih =>
    rcases hx : overdueEntry db hoje x with _ | e
    · simp only [List.filterMap_cons, hx, List.map_cons]
      exact ih.cons x.id
    · simp only [List.filterMap_cons, hx, List.map_cons]
      rw [overdueEntry_id hx]
      exact ih.cons₂ x.id

theorem ord_ids_nodup (db : DB) (pet : Pet)
    (hnd : ((historicoVacinas db pet).map PetVacina.id).Nodup) :
    ((ordByDataAplicacaoDesc (historicoVacinas db pet)).map PetVacina.id).Nodup :=
  ((ordByDataAplicacaoDesc_perm (historicoVacinas db pet)).map PetVacina.id).nodup_iff.mpr hnd

theorem prox_ids_nodup (db : DB) (pet : Pet) (hoje : Int)
    (hnd : ((historicoVacinas db pet).map PetVacina.id).Nodup) :
    ((obterProximasDoses db pet hoje).map DoseEntry.historicoId).Nodup :=
  List.Nodup.sublist (upcoming_ids_sublist db hoje _) (ord_ids_nodup db pet hnd)

theorem venc_ids_nodup (db : DB) (pet : Pet) (hoje : Int)
    (hnd : ((historicoVacinas db pet).map PetVacina.id).Nodup) :
    ((obterDosesVencidas db pet hoje).map DoseEntry.historicoId).Nodup :=
  List.Nodup.sublist (overdue_ids_sublist db hoje _) (ord_ids_nodup db pet hnd)

/-- C10: for an existing pet (with distinct record pks), the vaccination
history is exactly the upcoming list concatenated with the overdue list
(upcoming first); the entries carry pairwise distinct record ids, so every
record with a non-null next-dose date appears exactly once; records with a
null next-dose date are absent; and on a concrete database the combined
list is ordered by application date in neither direction (so it is not
ordered by application date across the two parts). -/
theorem c10_history_concatenation (db : DB) (petId : Nat) (hoje : Int)
    (pet : Pet) (hpet : db.findPet petId = some pet)
    (hnd : ((historicoVacinas db pet).map PetVacina.id).Nodup) :
    (getPetVaccinationHistory db petId hoje =
      Except.ok (obterProximasDoses db pet hoje ++ obterDosesVencidas db pet hoje)) ∧
    (((obterProximasDoses db pet hoje ++ obterDosesVencidas db pet hoje).map
        DoseEntry.historicoId).Nodup) ∧
    (∀ reg ∈ historicoVacinas db pet, ∀ p, reg.proximaDose = some p →
      ∃ e ∈ obterProximasDoses db pet hoje ++ obterDosesVencidas db pet hoje,
        e.historicoId = reg.id) ∧
    (∀ reg ∈ historicoVacinas db pet, reg.proximaDose = none →
      ∀ e ∈ obterProximasDoses db pet hoje ++ obterDosesVencidas db pet hoje,
        e.historicoId ≠ reg.id) ∧
    (∃ l, getPetVaccinationHistory exDB10 1 100 = Except.ok l ∧
      ¬ (l.map (fun e => regDataAplicacao exDB10 e.historicoId)).Sorted (· ≤ ·) ∧
      ¬ (l.map (fun e => regDataAplicacao exDB10 e.historicoId)).Sorted (· ≥ ·)) := by
  refine ⟨by simp [getPetVaccinationHistory, hpet], ?_, ?_, ?_, ?_⟩
  · rw [List.map_append, List.nodup_append]
    refine ⟨prox_ids_nodup db pet hoje hnd, venc_ids_nodup db pet hoje hnd, ?_⟩
    intro a ha hb
    obtain ⟨e1, he1, hid1⟩ := List.mem_map.mp ha
    obtain ⟨e2, he2, hid2⟩ := List.mem_map.mp hb
    exact prox_venc_disjoint_ids db pet hoje hnd a ⟨⟨e1, he1, hid1⟩, ⟨e2, he2, hid2⟩⟩
  · intro reg hreg p hp
    by_cases hle : hoje ≤ p
    · refine ⟨(⟨vacinaNome db reg.vacinaId, p, some (p - hoje), none, reg.id⟩ : DoseEntry),
        List.mem_append_left _ ?_, rfl⟩
      exact mem_obterProximasDoses.mpr ⟨reg, hreg, by simp [upcomingEntry, hp, hle]⟩
    · refine ⟨(⟨vacinaNome db reg.vacinaId, p, none, some (hoje - p), reg.id⟩ : DoseEntry),
        List.mem_append_right _ ?_, rfl⟩
      have hlt : p < hoje := by omega
      exact mem_obterDosesVencidas.mpr ⟨reg, hreg, by simp [overdueEntry, hp, hlt]⟩
  · intro reg hreg hnone e he hide
    rcases List.mem_append.mp he with he' | he'
    · obtain ⟨r', hr', hf⟩ := mem_obterProximasDoses.mp he'
      obtain ⟨p, hp, _, _⟩ := upcomingEntry_some hf
      have hidr : e.historicoId = r'.id := upcomingEntry_id hf
      have : r' = reg := List.inj_on_of_nodup_map hnd hr' hreg (by omega)
      rw [this, hnone] at hp
      exact Option.noConfusion hp
    · obtain ⟨r', hr', hf⟩ := mem_obterDosesVencidas.mp he'
      obtain ⟨p, hp, _, _⟩ := overdueEntry_some hf
      have hidr : e.historicoId = r'.id := overdueEntry_id hf
      have : r' = reg := List.inj_on_of_nodup_map hnd hr' hreg (by omega)
      rw [this, hnone] at hp
      exact Option.noConfusion hp
  · refine ⟨_, rfl, ?_, ?_⟩ <;> decide

/-- Witness for C10: on the concrete database the history of pet 1 at day
100 is the upcoming list followed by the overdue list, with pairwise
distinct record ids. -/
theorem c10_witness :
    (getPetVaccinationHistory exDB10 1 100 =
      Except.ok (obterProximasDoses exDB10 exPet10 100 ++
        obterDosesVencidas exDB10 exPet10 100)) ∧
    (((obterProximasDoses exDB10 exPet10 100 ++
        obterDosesVencidas exDB10 exPet10 100).map DoseEntry.historicoId).Nodup) :=
  ⟨(c10_history_concatenation exDB10 1 100 exPet10 rfl (by decide)).1,
   (c10_history_concatenation exDB10 1 100 exPet10 rfl (by decide)).2.1⟩

end ApiVacinaPet
